import Mathlib

/-!
# Verification of RDirScan

Shallow embedding of `src/main.rs` of RDirScan, a concurrent web-path
scanner with adaptive false-positive suppression, together with proofs
about its detection state, probe classification, target validation and
input-file loading.

Modelling conventions:
* Rust `HashSet` / `HashMap` become association lists without duplicate
  keys (all mutations go through the insert/remove helpers below, which
  preserve that shape); membership is what the proofs consume.
* The interactive confirm-filter prompt (`stdin` read in
  `check_repeated_size`) is modelled by an explicit operator `decision`
  argument, plus a `prompted` flag recording that the interactive block
  was reached.
* The result file `out.txt` is modelled as a list of lines; `File::create`
  truncation at scan start is the empty list.
* Rust string primitives (`str::contains`, `str::trim`,
  `str::starts_with`, `String::len`) are modelled on the character
  sequence of the Lean `String`; `String::len` (UTF-8 byte count) is
  `String.utf8ByteSize`.
-/

namespace RDirScan

/-- Does the list `s` start with the list `pre`? Character-level model of
Rust `str::starts_with`. -/
def startsWithChars : List Char → List Char → Bool
  | [], _ => true
  | _ :: _, [] => false
  | a :: pre, b :: s => a == b && startsWithChars pre s

/-- Does `needle` occur contiguously inside `hay`? Character-level model of
Rust `str::contains` (UTF-8 is self-synchronizing, so byte-level substring
occurrence between valid strings coincides with character-level occurrence). -/
def occursInChars (needle hay : List Char) : Bool :=
  match hay with
  | [] => needle.isEmpty
  | _ :: rest => startsWithChars needle hay || occursInChars needle rest

/-- Rust `str::contains`: substring test. -/
def strContains (hay needle : String) : Bool :=
  occursInChars needle.data hay.data

/-- Rust `str::starts_with`. -/
def strStartsWith (s pre : String) : Bool :=
  startsWithChars pre.data s.data

/-- Rust `str::trim`: strip whitespace from both ends. -/
def strTrim (s : String) : String :=
  ⟨((s.data.dropWhile Char.isWhitespace).reverse.dropWhile Char.isWhitespace).reverse⟩

/-- Rust `str::is_empty`. -/
def strIsEmpty (s : String) : Bool :=
  s.data.isEmpty

/-- Lookup in the `size_counter` map (`HashMap<usize, usize>`); absent keys
read as 0, matching `entry(size).or_insert(0)`. -/
def getCount : List (Nat × Nat) → Nat → Nat
  | [], _ => 0
  | p :: rest, s => if p.1 = s then p.2 else getCount rest s

/-- Store a count in the `size_counter` map, replacing the entry for the key
if present (model of `HashMap` insertion / in-place mutation through
`entry`). -/
def setCount : List (Nat × Nat) → Nat → Nat → List (Nat × Nat)
  | [], s, c => [(s, c)]
  | p :: rest, s, c => if p.1 = s then (s, c) :: rest else p :: setCount rest s c

/-- Model of `HashMap::remove`: drop the entry for key `s`. -/
def removeCount : List (Nat × Nat) → Nat → List (Nat × Nat)
  | [], _ => []
  | p :: rest, s => if p.1 = s then removeCount rest s else p :: removeCount rest s

/-- Model of `HashSet<usize>::insert`. -/
def insertSize (l : List Nat) (s : Nat) : List Nat :=
  if s ∈ l then l else s :: l

/-- Model of `HashSet<String>::insert`. -/
def insertSig (l : List String) (s : String) : List String :=
  if s ∈ l then l else s :: l

/-- The shared detection state (struct `ScanState` in `main.rs`):
`content_signatures` from the optional filter file, the per-size
occurrence counter, and the confirmed-filtered sizes. -/
structure ScanState where
  content_signatures : List String
  size_counter : List (Nat × Nat)
  filtered_sizes : List Nat
deriving DecidableEq, Repr

/-- `ScanState::new()`. -/
def ScanState.new : ScanState :=
  { content_signatures := [], size_counter := [], filtered_sizes := [] }

/-- One loop iteration of `ScanState::from_file`: the line is trimmed;
empty and `#`-starting (after trimming) lines are skipped; every other
trimmed line is inserted into `content_signatures`. -/
def fromFileStep (st : ScanState) (line : String) : ScanState :=
  let t := strTrim line
  if strIsEmpty t || strStartsWith t "#" then st
  else { st with content_signatures := insertSig st.content_signatures t }

/-- `ScanState::from_file`, with the file contents given as its list of
lines. -/
def ScanState.from_file (lines : List String) : ScanState :=
  lines.foldl fromFileStep ScanState.new

/-- `ScanState::is_filtered`: true when the body contains any stored
signature fragment, or the size is in `filtered_sizes`. -/
def ScanState.is_filtered (st : ScanState) (content : String) (size : Nat) : Bool :=
  st.content_signatures.any (fun sig => strContains content sig)
    || st.filtered_sizes.contains size

/-- Result of `check_repeated_size`: the returned boolean, whether the
interactive prompt block was reached, and the state after the call. -/
structure RepeatedSizeResult where
  value : Bool
  prompted : Bool
  state : ScanState
deriving DecidableEq, Repr

/-- `ScanState::check_repeated_size`, with the operator's would-be answer to
the prompt passed in as `decision` (`true` = the user types `y`).
Faithful to the source: the counter for `size` is bumped first
(`entry(size).or_insert(0); *count += 1`); if the size is already filtered
the call returns `true` immediately; otherwise, when the bumped count has
reached 5 (and the size is not filtered, a redundant re-check kept from the
source), the prompt fires: confirming inserts the size into
`filtered_sizes` and returns `true`; declining removes the size's counter
entry entirely and falls through to `false`. -/
def ScanState.check_repeated_size (st : ScanState) (size : Nat) (decision : Bool) :
    RepeatedSizeResult :=
  let c := getCount st.size_counter size + 1
  let st1 : ScanState := { st with size_counter := setCount st.size_counter size c }
  if st1.filtered_sizes.contains size then
    ⟨true, false, st1⟩
  else if 5 ≤ c ∧ st1.filtered_sizes.contains size = false then
    if decision then
      ⟨true, true, { st1 with filtered_sizes := insertSize st1.filtered_sizes size }⟩
    else
      ⟨false, true, { st1 with size_counter := removeCount st1.size_counter size }⟩
  else
    ⟨false, false, st1⟩

/-- Outcome of the classify-and-update operation on a successful probe:
`suppressed = true` is the spec's Suppressed, `suppressed = false` its
Confirmed; `prompted` records whether the interactive block ran. -/
structure ClassifyResult where
  suppressed : Bool
  prompted : Bool
  state : ScanState
deriving DecidableEq, Repr

/-- The classify-and-update operation performed under the lock in
`check_path` for a 2xx response:
`state.is_filtered(&content, size) || state.check_repeated_size(size)`,
with Rust's short-circuiting `||` (the counter is NOT touched when
`is_filtered` already answered `true`). -/
def classify (st : ScanState) (content : String) (size : Nat) (decision : Bool) :
    ClassifyResult :=
  if st.is_filtered content size then ⟨true, false, st⟩
  else
    let r := st.check_repeated_size size decision
    ⟨r.value, r.prompted, r.state⟩

/-- Modelled from the spec: the classify algorithm of §4.3 as written there,
step by step — (1) `size ∈ filtered_sizes` → Suppressed, no further work;
(2) body contains a signature → Suppressed, no mutation; (3) increment
`size_counts[size]` (created 0→1 if absent); (4) if the updated count
reaches 5 and the size is not already filtered, prompt: confirm adds the
size to `filtered_sizes` and suppresses, decline removes the size from
`size_counts` entirely; (5) otherwise Confirmed.  Used to state the
refinement claim that the code's `classify` behaves as the spec's
algorithm. -/
def classifySpec (st : ScanState) (body : String) (size : Nat) (decision : Bool) :
    ClassifyResult :=
  if st.filtered_sizes.contains size then ⟨true, false, st⟩
  else if st.content_signatures.any (fun sig => strContains body sig) then ⟨true, false, st⟩
  else
    let c := getCount st.size_counter size + 1
    let m1 := setCount st.size_counter size c
    if 5 ≤ c ∧ st.filtered_sizes.contains size = false then
      if decision then
        ⟨true, true, { st with size_counter := m1,
                               filtered_sizes := insertSize st.filtered_sizes size }⟩
      else
        ⟨false, true, { st with size_counter := removeCount m1 size }⟩
    else
      ⟨false, false, { st with size_counter := m1 }⟩

/-- A successful probe as fed to the detection state: body, body size, and
the operator's would-be prompt answer. -/
abbrev Probe := String × Nat × Bool

/-- The state after one successful probe's classify-and-update operation. -/
def classifyStep (st : ScanState) (p : Probe) : ScanState :=
  (classify st p.1 p.2.1 p.2.2).state

/-- Run a sequence of successful probes through the classify-and-update
operation, threading the detection state. -/
def runProbes (st : ScanState) (probes : List Probe) : ScanState :=
  probes.foldl classifyStep st

/-- A probe sequence in which sizes 7 and 9 strictly alternate, so no size
ever occurs twice in a row; bodies are empty and no filter rules are
involved. -/
def interleavedProbes : List Probe :=
  [("", 7, false), ("", 9, false), ("", 7, false), ("", 9, false),
   ("", 7, false), ("", 9, false), ("", 7, false), ("", 9, false)]

/-- The result line written for a confirmed finding:
`writeln!(file, "{} (大小: {} 字节)", url, content_length)`. -/
def resultLine (urlStr : String) (size : Nat) : String :=
  urlStr ++ " (大小: " ++ toString size ++ " 字节)"

/-- The result file `out.txt` right after `File::create` at scan start:
created fresh / truncated, hence no lines. -/
def initialOutputFile : List String := []

/-- Result of one `check_path` call: the returned `Ok` boolean, the result
file contents after the call, the detection state after the call, and
whether the interactive prompt ran. -/
structure CheckPathResult where
  found : Bool
  file : List String
  state : ScanState
  prompted : Bool
deriving DecidableEq, Repr

/-- `check_path` from the response onward (the network send is external):
given the response status and body, on a 2xx status (`StatusCode::is_success`,
i.e. 200..=299) the body size is its UTF-8 byte length, the
classify-and-update operation runs, and only a non-suppressed (confirmed)
finding appends its result line to the file; the call returns `Ok(true)`.
On any other status nothing happens and the call returns `Ok(false)`. -/
def check_path (st : ScanState) (file : List String) (urlStr : String)
    (status : Nat) (content : String) (decision : Bool) : CheckPathResult :=
  if 200 ≤ status ∧ status < 300 then
    let size := content.utf8ByteSize
    let r := classify st content size decision
    if r.suppressed then
      ⟨true, file, r.state, r.prompted⟩
    else
      ⟨true, file ++ [resultLine urlStr size], r.state, r.prompted⟩
  else
    ⟨false, file, st, false⟩

/-- The outcome of `Url::parse` as consumed by `validate_url`: the pieces of
the parsed URL that `validate_url` inspects.  The port is `Option (Fin 65536)`
because `Url::port` returns `Option<u16>` (the source's `port as u32` cast
is from `u16`). `canonical` is `url.to_string()`. -/
structure ParsedUrl where
  scheme : String
  host : Option String
  port : Option (Fin 65536)
  canonical : String

/-- The error cases of `validate_url`, one per `anyhow!` message. -/
inductive UrlError where
  | parseFailed
  | badScheme
  | noHost
  | badPort
deriving DecidableEq, Repr

/-- `validate_url`, over the outcome of `Url::parse` (`none` = the input
string did not parse): scheme must start with `http`, a host must be
present, a given port must not exceed 65535; on success the canonical
string form of the URL is returned. -/
def validate_url (parsed : Option ParsedUrl) : Except UrlError String :=
  match parsed with
  | none => .error .parseFailed
  | some u =>
    if (strStartsWith u.scheme "http") = false then .error .badScheme
    else if u.host.isNone then .error .noHost
    else
      match u.port with
      | some p =>
        if 65535 < (p : Nat) then .error .badPort else .ok u.canonical
      | none => .ok u.canonical

/-- The wordlist line filter in `main`:
`!line.trim().is_empty() && !line.starts_with('#')` — note the `#` test is
on the raw, untrimmed line. -/
def keepDictLine (line : String) : Bool :=
  !(strIsEmpty (strTrim line)) && !(strStartsWith line "#")

/-- Loading the wordlist in `main`: keep the raw lines passing
`keepDictLine`. -/
def loadDict (lines : List String) : List String :=
  lines.filter keepDictLine

/-- The filter-file line test implied by `ScanState::from_file`: a line
contributes a signature iff its trimmed form is nonempty and does not start
with `#`. -/
def keepFilterLine (line : String) : Bool :=
  !(strIsEmpty (strTrim line)) && !(strStartsWith (strTrim line) "#")

/-- Modelled from the spec: a URL as far as `check_path`'s join base is
concerned (scheme, host, path; `Url::parse` normalizes an absent path to
`/`). -/
structure UrlModel where
  scheme : String
  host : String
  path : String
deriving DecidableEq, Repr

/-- The character prefix of `p` up to and including its last `/` (empty if
`p` has no slash). -/
def upToLastSlash (p : List Char) : List Char :=
  ((p.reverse.dropWhile (fun c => c != '/')).reverse)

/-- Modelled from the spec: standard relative-URL resolution
(`Url::join` in `check_path`) for path-only references, per the RFC 3986
§5.3 merge rule — an absolute path replaces the base path; otherwise the
reference is appended to the base path with its last segment removed.
Dot-segment normalization is not exercised by the spec's examples and is
omitted. -/
def joinUrl (base : UrlModel) (ref : String) : UrlModel :=
  if strStartsWith ref "/" then { base with path := ref }
  else { base with path := ⟨upToLastSlash base.path.data⟩ ++ ref }

/-- `Url::to_string` for the URL model. -/
def UrlModel.render (u : UrlModel) : String :=
  u.scheme ++ "://" ++ u.host ++ u.path

/-! ## Helper lemmas about the association-list maps and sets -/

theorem getCount_setCount_self (m : List (Nat × Nat)) (s c : Nat) :
    getCount (setCount m s c) s = c := by
  induction m with
  | nil => simp [getCount, setCount]
  | cons p rest ih =>
    by_cases h : p.1 = s
    · simp [getCount, setCount, h]
    · simpa [getCount, setCount, h] using ih

theorem getCount_setCount_ne (m : List (Nat × Nat)) (s s' c : Nat) (h : s ≠ s') :
    getCount (setCount m s' c) s = getCount m s := by
  induction m with
  | nil => simp [getCount, setCount, Ne.symm h]
  | cons p rest ih =>
    by_cases hp : p.1 = s'
    · simp [getCount, setCount, hp, Ne.symm h]
    · by_cases hs : p.1 = s
      · simp [getCount, setCount, hp, hs, h]
      · simpa [getCount, setCount, hp, hs] using ih

theorem getCount_removeCount_self (m : List (Nat × Nat)) (s : Nat) :
    getCount (removeCount m s) s = 0 := by
  induction m with
  | nil => simp [getCount, removeCount]
  | cons p rest ih =>
    by_cases h : p.1 = s
    · simpa [getCount, removeCount, h] using ih
    · simpa [getCount, removeCount, h] using ih

theorem getCount_removeCount_ne (m : List (Nat × Nat)) (s s' : Nat) (h : s ≠ s') :
    getCount (removeCount m s') s = getCount m s := by
  induction m with
  | nil => simp [getCount, removeCount]
  | cons p rest ih =>
    by_cases hp : p.1 = s'
    · simpa [getCount, removeCount, hp, Ne.symm h] using ih
    · by_cases hs : p.1 = s
      · simp [getCount, removeCount, hp, hs, h]
      · simpa [getCount, removeCount, hp, hs] using ih

theorem mem_insertSize_self (l : List Nat) (s : Nat) : s ∈ insertSize l s := by
  unfold insertSize
  by_cases h : s ∈ l
  · simp [h]
  · simp [h]

theorem mem_insertSize_mono (l : List Nat) (s x : Nat)
    (h : x ∈ l) : x ∈ insertSize l s := by
  unfold insertSize
  by_cases hc : s ∈ l
  · simpa [hc] using h
  · simp [hc, List.mem_cons, h]

theorem mem_insertSig (l : List String) (t x : String) :
    x ∈ insertSig l t ↔ x = t ∨ x ∈ l := by
  unfold insertSig
  by_cases h : t ∈ l
  · simp only [if_pos h]
    constructor
    · intro hx; exact Or.inr hx
    · rintro (rfl | hx)
      · exact h
      · exact hx
  · simp [h, List.mem_cons]

/-! ## Structural lemmas about the classify-and-update operation -/

theorem classify_of_filtered (st : ScanState) (b : String) (s : Nat) (d : Bool)
    (h : st.filtered_sizes.contains s = true) :
    classify st b s d = ⟨true, false, st⟩ := by
  have hm : s ∈ st.filtered_sizes := by simpa using h
  unfold classify ScanState.is_filtered
  simp [hm]

theorem classify_state_filtered_cases (st : ScanState) (b : String) (s : Nat) (d : Bool) :
    (classify st b s d).state.filtered_sizes = st.filtered_sizes
    ∨ (classify st b s d).state.filtered_sizes = insertSize st.filtered_sizes s := by
  unfold classify ScanState.check_repeated_size
  split
  · exact Or.inl rfl
  · dsimp only
    split
    · exact Or.inl rfl
    · split
      · split
        · exact Or.inr rfl
        · exact Or.inl rfl
      · exact Or.inl rfl

theorem mem_filtered_classify_mono (st : ScanState) (b : String) (s : Nat) (d : Bool)
    (x : Nat) (h : x ∈ st.filtered_sizes) :
    x ∈ (classify st b s d).state.filtered_sizes := by
  rcases classify_state_filtered_cases st b s d with hc | hc
  · rw [hc]; exact h
  · rw [hc]; exact mem_insertSize_mono _ _ _ h

theorem mem_filtered_runProbes_mono (probes : List Probe) (st : ScanState)
    (x : Nat) (h : x ∈ st.filtered_sizes) :
    x ∈ (runProbes st probes).filtered_sizes := by
  induction probes generalizing st with
  | nil => exact h
  | cons p rest ih =>
    exact ih _ (mem_filtered_classify_mono st p.1 p.2.1 p.2.2 x h)

theorem classify_eq_classifySpec (st : ScanState) (b : String) (s : Nat) (d : Bool) :
    classify st b s d = classifySpec st b s d := by
  unfold classify classifySpec ScanState.is_filtered ScanState.check_repeated_size
  by_cases hm : s ∈ st.filtered_sizes
  · simp [hm]
  · by_cases hsig : ∃ x ∈ st.content_signatures, strContains b x = true
    · simp [hm, hsig]
    · by_cases h3 : 4 ≤ getCount st.size_counter s
      · cases d <;> simp [hm, hsig, h3]
      · simp [hm, hsig, h3]

theorem classify_of_sig (st : ScanState) (b : String) (s : Nat) (d : Bool)
    (hsig : ∃ x ∈ st.content_signatures, strContains b x = true) :
    classify st b s d = ⟨true, false, st⟩ := by
  unfold classify ScanState.is_filtered
  simp [hsig]

theorem classify_counter_other (st : ScanState) (b : String) (s' : Nat) (d : Bool)
    (s : Nat) (h : s ≠ s') :
    getCount (classify st b s' d).state.size_counter s = getCount st.size_counter s := by
  unfold classify ScanState.check_repeated_size
  split
  · rfl
  · dsimp only
    split
    · exact getCount_setCount_ne _ _ _ _ h
    · split
      · split
        · exact getCount_setCount_ne _ _ _ _ h
        · rw [getCount_removeCount_ne _ _ _ h, getCount_setCount_ne _ _ _ _ h]
      · exact getCount_setCount_ne _ _ _ _ h

theorem classify_unfiltered_cases (st : ScanState) (b : String) (s : Nat) (d : Bool)
    (hm : s ∉ st.filtered_sizes)
    (hsig : ¬∃ x ∈ st.content_signatures, strContains b x = true) :
    ((classify st b s d).prompted = true ↔ 5 ≤ getCount st.size_counter s + 1)
    ∧ (getCount st.size_counter s + 1 < 5 →
        (classify st b s d).suppressed = false
        ∧ getCount (classify st b s d).state.size_counter s = getCount st.size_counter s + 1)
    ∧ (5 ≤ getCount st.size_counter s + 1 → d = true →
        (classify st b s d).suppressed = true
        ∧ s ∈ (classify st b s d).state.filtered_sizes
        ∧ getCount (classify st b s d).state.size_counter s = getCount st.size_counter s + 1)
    ∧ (5 ≤ getCount st.size_counter s + 1 → d = false →
        (classify st b s d).suppressed = false
        ∧ getCount (classify st b s d).state.size_counter s = 0) := by
  unfold classify ScanState.is_filtered ScanState.check_repeated_size
  by_cases h3 : 4 ≤ getCount st.size_counter s
  · cases d <;>
      simp [hm, hsig, h3, Nat.succ_le_succ_iff, getCount_setCount_self,
        getCount_removeCount_self, mem_insertSize_self]
  · simp [hm, hsig, h3, Nat.succ_le_succ_iff, getCount_setCount_self, Nat.lt_of_succ_le]

/-! ## Claim theorems -/

/-- C1: for every successful (2xx) probe with body `b` and size `s`, the
classify-and-update operation of `check_path` behaves as the spec's
algorithm (`classifySpec`, §4.3 steps 1–5): a size in `filtered_sizes` is
Suppressed with no mutation of the size counter; a body containing a stored
signature fragment is Suppressed with no mutation of the size counter;
otherwise the counter for `s` is incremented by one (created at 0 if
absent) and, when no suppression condition fires, the outcome is
Confirmed. -/
theorem claim_C1_classify_matches_spec (st : ScanState) (b : String) (s : Nat) (d : Bool) :
    classify st b s d = classifySpec st b s d
    ∧ (s ∈ st.filtered_sizes →
        (classify st b s d).suppressed = true
        ∧ (classify st b s d).state.size_counter = st.size_counter)
    ∧ ((∃ x ∈ st.content_signatures, strContains b x = true) →
        (classify st b s d).suppressed = true
        ∧ (classify st b s d).state.size_counter = st.size_counter)
    ∧ (s ∉ st.filtered_sizes →
        ¬(∃ x ∈ st.content_signatures, strContains b x = true) →
        getCount st.size_counter s + 1 < 5 →
        (classify st b s d).suppressed = false
        ∧ getCount (classify st b s d).state.size_counter s
            = getCount st.size_counter s + 1) := by
  refine ⟨classify_eq_classifySpec st b s d, ?_, ?_, ?_⟩
  · intro hm
    rw [classify_of_filtered st b s d (by simpa using hm)]
    exact ⟨rfl, rfl⟩
  · intro hsig
    rw [classify_of_sig st b s d hsig]
    exact ⟨rfl, rfl⟩
  · intro hm hsig h3
    exact (classify_unfiltered_cases st b s d hm hsig).2.1 h3

/-- Witness for C1 at concrete inputs: a filtered size is suppressed without
counter mutation, and an unfiltered, unsignatured probe below the threshold
is confirmed with its counter bumped from 1 to 2. -/
theorem claim_C1_classify_matches_spec_witness :
    (classify ⟨["x"], [], [7]⟩ "body" 7 false).suppressed = true
    ∧ (classify ⟨["x"], [], [7]⟩ "body" 7 false).state.size_counter = []
    ∧ (classify ⟨[], [(5, 1)], []⟩ "body" 5 false).suppressed = false
    ∧ getCount (classify ⟨[], [(5, 1)], []⟩ "body" 5 false).state.size_counter 5
        = getCount ([(5, 1)] : List (Nat × Nat)) 5 + 1 :=
  ⟨((claim_C1_classify_matches_spec ⟨["x"], [], [7]⟩ "body" 7 false).2.1 (by decide)).1,
   ((claim_C1_classify_matches_spec ⟨["x"], [], [7]⟩ "body" 7 false).2.1 (by decide)).2,
   ((claim_C1_classify_matches_spec ⟨[], [(5, 1)], []⟩ "body" 5 false).2.2.2
      (by decide) (by decide) (by decide)).1,
   ((claim_C1_classify_matches_spec ⟨[], [(5, 1)], []⟩ "body" 5 false).2.2.2
      (by decide) (by decide) (by decide)).2⟩

/-- C2 is refuted on the code: starting from the empty state, after the
eight probes of `interleavedProbes` (sizes 7 and 9 strictly alternating, so
no size ever occurs twice in a row, and the longest consecutive run of size
7 has length 1) a ninth successful probe of size 7 — its 5th overall but
not 5th consecutive occurrence — does reach the interactive prompt:
`size_counter` counts per-size occurrences cumulatively and an intervening
probe of a different size does not break or reset the run. -/
theorem claim_C2_counterexample :
    (runProbes ScanState.new interleavedProbes).content_signatures = []
    ∧ (runProbes ScanState.new interleavedProbes).filtered_sizes = []
    ∧ getCount (runProbes ScanState.new interleavedProbes).size_counter 7 = 4
    ∧ (classify (runProbes ScanState.new interleavedProbes) "" 7 false).prompted = true := by
  decide

/-- C2 (amended): for a size `s` not in the signature-derived or explicit
filter set, the 5th successful probe of size `s` counted cumulatively — not
necessarily consecutively, since a successful probe of a different size
never changes `s`'s counter — and only that occurrence triggers the
interactive decision: the prompt fires exactly when the updated count
reaches 5; after the operator declines, the counter entry for `s` is
removed (so another 5 occurrences of `s` are required to re-trigger), and
after the operator confirms, `s` enters `filtered_sizes` and the probe is
suppressed. -/
theorem claim_C2_amended_cumulative_threshold (st : ScanState) (b : String)
    (s s' : Nat) (d : Bool) :
    (s ≠ s' → getCount (classify st b s' d).state.size_counter s = getCount st.size_counter s)
    ∧ (s ∉ st.filtered_sizes →
        ¬(∃ x ∈ st.content_signatures, strContains b x = true) →
        (((classify st b s d).prompted = true ↔ 5 ≤ getCount st.size_counter s + 1)
          ∧ (5 ≤ getCount st.size_counter s + 1 → d = false →
              (classify st b s d).suppressed = false
              ∧ getCount (classify st b s d).state.size_counter s = 0)
          ∧ (5 ≤ getCount st.size_counter s + 1 → d = true →
              (classify st b s d).suppressed = true
              ∧ s ∈ (classify st b s d).state.filtered_sizes))) :=
  ⟨fun h => classify_counter_other st b s' d s h,
   fun hm hsig =>
     ⟨(classify_unfiltered_cases st b s d hm hsig).1,
      fun h5 hd => (classify_unfiltered_cases st b s d hm hsig).2.2.2 h5 hd,
      fun h5 hd =>
        ⟨((classify_unfiltered_cases st b s d hm hsig).2.2.1 h5 hd).1,
         ((classify_unfiltered_cases st b s d hm hsig).2.2.1 h5 hd).2.1⟩⟩⟩

/-- Witness for the amended C2 at concrete inputs: with the counter for size
7 at 4, a probe of size 9 leaves 7's count untouched; a probe of size 7
prompts; declining resets 7's count to 0; confirming suppresses and filters
size 7. -/
theorem claim_C2_amended_cumulative_threshold_witness :
    getCount (classify ⟨[], [(7, 4)], []⟩ "" 9 false).state.size_counter 7
        = getCount ([(7, 4)] : List (Nat × Nat)) 7
    ∧ ((classify ⟨[], [(7, 4)], []⟩ "" 7 false).prompted = true
        ↔ 5 ≤ getCount ([(7, 4)] : List (Nat × Nat)) 7 + 1)
    ∧ (classify ⟨[], [(7, 4)], []⟩ "" 7 false).suppressed = false
    ∧ getCount (classify ⟨[], [(7, 4)], []⟩ "" 7 false).state.size_counter 7 = 0
    ∧ (classify ⟨[], [(7, 4)], []⟩ "" 7 true).suppressed = true
    ∧ 7 ∈ (classify ⟨[], [(7, 4)], []⟩ "" 7 true).state.filtered_sizes :=
  ⟨(claim_C2_amended_cumulative_threshold ⟨[], [(7, 4)], []⟩ "" 7 9 false).1 (by decide),
   ((claim_C2_amended_cumulative_threshold ⟨[], [(7, 4)], []⟩ "" 7 9 false).2
      (by decide) (by decide)).1,
   (((claim_C2_amended_cumulative_threshold ⟨[], [(7, 4)], []⟩ "" 7 9 false).2
      (by decide) (by decide)).2.1 (by decide) rfl).1,
   (((claim_C2_amended_cumulative_threshold ⟨[], [(7, 4)], []⟩ "" 7 9 false).2
      (by decide) (by decide)).2.1 (by decide) rfl).2,
   (((claim_C2_amended_cumulative_threshold ⟨[], [(7, 4)], []⟩ "" 7 9 true).2
      (by decide) (by decide)).2.2 (by decide) rfl).1,
   (((claim_C2_amended_cumulative_threshold ⟨[], [(7, 4)], []⟩ "" 7 9 true).2
      (by decide) (by decide)).2.2 (by decide) rfl).2⟩

/-- C3: once `s` is a member of `filtered_sizes`, every subsequent
successful response of size `s` — after any sequence of intervening
classify operations on arbitrary probes — is classified Suppressed and
never reaches the interactive prompt again. -/
theorem claim_C3_filtered_suppresses_forever (st : ScanState) (s : Nat)
    (probes : List Probe) (b : String) (d : Bool)
    (h : s ∈ st.filtered_sizes) :
    s ∈ (runProbes st probes).filtered_sizes
    ∧ (classify (runProbes st probes) b s d).suppressed = true
    ∧ (classify (runProbes st probes) b s d).prompted = false := by
  have h1 := mem_filtered_runProbes_mono probes st s h
  have h2 := classify_of_filtered (runProbes st probes) b s d (by simpa using h1)
  rw [h2]
  exact ⟨h1, rfl, rfl⟩

/-- Witness for C3: size 7 filtered from the start stays filtered through
the eight probes of `interleavedProbes`, and a further size-7 probe is
suppressed with no prompt. -/
theorem claim_C3_filtered_suppresses_forever_witness :
    7 ∈ (runProbes ⟨[], [], [7]⟩ interleavedProbes).filtered_sizes
    ∧ (classify (runProbes ⟨[], [], [7]⟩ interleavedProbes) "" 7 false).suppressed = true
    ∧ (classify (runProbes ⟨[], [], [7]⟩ interleavedProbes) "" 7 false).prompted = false :=
  claim_C3_filtered_suppresses_forever ⟨[], [], [7]⟩ 7 interleavedProbes "" false (by decide)

/-- C6: `filtered_sizes` grows monotonically: a size present in
`filtered_sizes` is still present after any single classify-and-update
operation and after any sequence of them — entries are added, never
removed. -/
theorem claim_C6_filtered_sizes_monotone (st : ScanState) (b : String) (s : Nat)
    (d : Bool) (probes : List Probe) (x : Nat) (h : x ∈ st.filtered_sizes) :
    x ∈ (classify st b s d).state.filtered_sizes
    ∧ x ∈ (runProbes st probes).filtered_sizes :=
  ⟨mem_filtered_classify_mono st b s d x h, mem_filtered_runProbes_mono probes st x h⟩

/-- Witness for C6: size 5, filtered at the start, survives a size-9
classify call and the whole `interleavedProbes` sequence. -/
theorem claim_C6_filtered_sizes_monotone_witness :
    5 ∈ (classify ⟨[], [], [5]⟩ "" 9 false).state.filtered_sizes
    ∧ 5 ∈ (runProbes ⟨[], [], [5]⟩ interleavedProbes).filtered_sizes :=
  claim_C6_filtered_sizes_monotone ⟨[], [], [5]⟩ "" 9 false interleavedProbes 5 (by decide)

/-- C4: for every successful (2xx) probe, a Suppressed outcome leaves the
result file unchanged, while a Confirmed outcome appends exactly one line of
the literal form `<full URL> (大小: <N> 字节)`, with `N` the body's UTF-8
byte size; the result file itself starts empty at scan start
(`File::create` truncates `out.txt`). -/
theorem claim_C4_result_file_effect (st : ScanState) (file : List String)
    (urlStr : String) (status : Nat) (content : String) (d : Bool)
    (h1 : 200 ≤ status) (h2 : status < 300) :
    ((classify st content content.utf8ByteSize d).suppressed = true →
      (check_path st file urlStr status content d).file = file)
    ∧ ((classify st content content.utf8ByteSize d).suppressed = false →
      (check_path st file urlStr status content d).file
        = file ++ [urlStr ++ " (大小: " ++ toString content.utf8ByteSize ++ " 字节)"])
    ∧ initialOutputFile = [] := by
  have hc : 200 ≤ status ∧ status < 300 := ⟨h1, h2⟩
  refine ⟨?_, ?_, rfl⟩
  · intro hs
    simp [check_path, hc, hs]
  · intro hs
    simp [check_path, resultLine, hc, hs]

/-- Witness for C4: a fresh state, a 200 response with body `abc` — not
suppressed — appends exactly its formatted line to the empty result file. -/
theorem claim_C4_result_file_effect_witness :
    (check_path ScanState.new [] "http://target/admin" 200 "abc" false).file
      = [] ++ ["http://target/admin" ++ " (大小: "
          ++ toString (String.utf8ByteSize "abc") ++ " 字节)"]
    ∧ initialOutputFile = [] :=
  ⟨(claim_C4_result_file_effect ScanState.new [] "http://target/admin" 200 "abc" false
      (by decide) (by decide)).2.1 (by decide),
   (claim_C4_result_file_effect ScanState.new [] "http://target/admin" 200 "abc" false
      (by decide) (by decide)).2.2⟩

/-- C5: for every probe whose response status is not 2xx, `check_path`
returns the non-found outcome `Ok(false)` with the result file and the
detection state untouched and no prompt — the path is treated as absent,
not as an error. -/
theorem claim_C5_non2xx_untouched (st : ScanState) (file : List String)
    (urlStr : String) (status : Nat) (content : String) (d : Bool)
    (h : status < 200 ∨ 300 ≤ status) :
    check_path st file urlStr status content d = ⟨false, file, st, false⟩ := by
  have hc : ¬(200 ≤ status ∧ status < 300) := by omega
  unfold check_path
  rw [if_neg hc]

/-- Witness for C5: a 404 response leaves everything unchanged and reports
not-found. -/
theorem claim_C5_non2xx_untouched_witness :
    check_path ScanState.new [] "http://target/x" 404 "irrelevant" false
      = ⟨false, [], ScanState.new, false⟩ :=
  claim_C5_non2xx_untouched ScanState.new [] "http://target/x" 404 "irrelevant" false
    (by decide)

/-- C7: target resolution fails exactly when the input does not parse as a
URL, or the parsed scheme does not start with `http`, or no host is
present, or a given port exceeds 65535 (a condition that can never hold of
a `u16` port); in every other case it succeeds and returns the canonical
string form of the URL used as the join base. -/
theorem claim_C7_validate_url_contract (parsed : Option ParsedUrl) :
    ((∃ e, validate_url parsed = Except.error e) ↔
      (parsed = none
        ∨ ∃ u, parsed = some u
            ∧ (strStartsWith u.scheme "http" = false
                ∨ u.host = none
                ∨ ∃ p, u.port = some p ∧ 65535 < (p : Nat))))
    ∧ (∀ u, parsed = some u → strStartsWith u.scheme "http" = true →
        u.host.isSome = true → validate_url parsed = Except.ok u.canonical) := by
  cases parsed with
  | none =>
    refine ⟨⟨fun _ => Or.inl rfl, fun _ => ⟨UrlError.parseFailed, rfl⟩⟩, ?_⟩
    intro u h
    cases h
  | some u =>
    have hval : strStartsWith u.scheme "http" = true → u.host.isNone = false →
        validate_url (some u) = Except.ok u.canonical := by
      intro hsch hh
      cases hp : u.port with
      | none => simp [validate_url, hsch, hh, hp]
      | some p =>
        have hlt := p.isLt
        have hno : ¬(65535 < (p : Nat)) := by omega
        simp [validate_url, hsch, hh, hp, hno]
    constructor
    · constructor
      · rintro ⟨e, he⟩
        refine Or.inr ⟨u, rfl, ?_⟩
        by_cases hsch : strStartsWith u.scheme "http" = false
        · exact Or.inl hsch
        · have hsch' : strStartsWith u.scheme "http" = true := by
            cases hb : strStartsWith u.scheme "http" <;> simp_all
          by_cases hh : u.host.isNone = true
          · refine Or.inr (Or.inl ?_)
            cases hb : u.host with
            | none => rfl
            | some host => rw [hb] at hh; cases hh
          · have hh' : u.host.isNone = false := by
              cases hb : u.host.isNone
              · rfl
              · exact absurd hb hh
            rw [hval hsch' hh'] at he
            cases he
      · rintro (h | ⟨v, hv, hcase⟩)
        · cases h
        · obtain rfl : v = u := by injection hv with h; exact h.symm
          rcases hcase with hsch | hh | ⟨p, _, hgt⟩
          · exact ⟨UrlError.badScheme, by simp [validate_url, hsch]⟩
          · by_cases hsch : strStartsWith v.scheme "http" = false
            · exact ⟨UrlError.badScheme, by simp [validate_url, hsch]⟩
            · have hsch' : strStartsWith v.scheme "http" = true := by
                cases hb : strStartsWith v.scheme "http" <;> simp_all
              exact ⟨UrlError.noHost, by simp [validate_url, hsch', hh]⟩
          · exact absurd hgt (by have := p.isLt; omega)
    · intro v hv hsch hhost
      obtain rfl : v = u := by injection hv with h; exact h.symm
      have hh : v.host.isNone = false := by
        cases hb : v.host with
        | none => rw [hb] at hhost; cases hhost
        | some h => simp [hb]
      exact hval hsch hh

/-- Witness for C7: a parsed `https` URL with host and port 8080 validates
to its canonical form. -/
theorem claim_C7_validate_url_contract_witness :
    validate_url (some ⟨"https", some "host", some 8080, "https://host:8080/"⟩)
      = Except.ok "https://host:8080/" :=
  (claim_C7_validate_url_contract
      (some ⟨"https", some "host", some 8080, "https://host:8080/"⟩)).2
    ⟨"https", some "host", some 8080, "https://host:8080/"⟩ rfl (by decide) rfl

/-- C10: the port-range error branch of `validate_url` is unreachable: the
parsed port is a `u16` (`Url::port` returns `Option<u16>`; the source's
`port as u32` cast is from `u16`), so `port > 65535` is always false and
the dedicated port error is never returned, whatever the parse outcome. -/
theorem claim_C10_port_error_unreachable (parsed : Option ParsedUrl) :
    validate_url parsed ≠ Except.error UrlError.badPort := by
  cases parsed with
  | none => simp [validate_url]
  | some u =>
    by_cases h1 : strStartsWith u.scheme "http" = false
    · simp [validate_url, h1]
    · have h1' : strStartsWith u.scheme "http" = true := by
        cases hb : strStartsWith u.scheme "http" <;> simp_all
      by_cases h2 : u.host.isNone = true
      · simp [validate_url, h1', h2]
      · have h2' : u.host.isNone = false := by
          cases hb : u.host.isNone
          · rfl
          · exact absurd hb h2
        cases hp : u.port with
        | none => simp [validate_url, h1', h2', hp]
        | some p =>
          have hlt := p.isLt
          have hno : ¬(65535 < (p : Nat)) := by omega
          simp [validate_url, h1', h2', hp, hno]

/-- Witness for C10 at a concrete parse outcome. -/
theorem claim_C10_port_error_unreachable_witness :
    validate_url none ≠ Except.error UrlError.badPort :=
  claim_C10_port_error_unreachable none

/-- C8: path joining follows standard relative-URL resolution rather than
string concatenation: base `http://example.com/app/` joined with `admin`
yields `http://example.com/app/admin`, and base `http://example.com`
(whose parsed path is normalized to `/`) joined with `/admin` yields
`http://example.com/admin`. -/
theorem claim_C8_join_relative_resolution :
    (joinUrl ⟨"http", "example.com", "/app/"⟩ "admin").render
        = "http://example.com/app/admin"
    ∧ (joinUrl ⟨"http", "example.com", "/"⟩ "/admin").render
        = "http://example.com/admin" := by
  decide

theorem mem_fromFile_fold (lines : List String) (st : ScanState) (x : String) :
    x ∈ (lines.foldl fromFileStep st).content_signatures ↔
      x ∈ st.content_signatures
      ∨ ∃ l ∈ lines, strTrim l = x
          ∧ strIsEmpty x = false ∧ strStartsWith x "#" = false := by
  induction lines generalizing st with
  | nil => simp
  | cons l rest ih =>
    have hstep : fromFileStep st l =
        if strIsEmpty (strTrim l) || strStartsWith (strTrim l) "#" then st
        else { st with content_signatures := insertSig st.content_signatures (strTrim l) } :=
      rfl
    rw [List.foldl_cons, ih, hstep]
    by_cases hskip : (strIsEmpty (strTrim l) || strStartsWith (strTrim l) "#") = true
    · rw [if_pos hskip]
      constructor
      · rintro (hx | ⟨l1, hl1, hrest⟩)
        · exact Or.inl hx
        · exact Or.inr ⟨l1, List.mem_cons_of_mem _ hl1, hrest⟩
      · rintro (hx | ⟨l1, hl1, ht, he, hsh⟩)
        · exact Or.inl hx
        · rcases List.mem_cons.mp hl1 with rfl | hl1
          · exfalso
            rw [ht, he, hsh] at hskip
            cases hskip
          · exact Or.inr ⟨l1, hl1, ht, he, hsh⟩
    · rw [if_neg hskip]
      have hor := hskip
      rw [Bool.or_eq_true] at hor
      push_neg at hor
      have he : strIsEmpty (strTrim l) = false := by
        cases hb : strIsEmpty (strTrim l)
        · rfl
        · exact absurd hb hor.1
      have hsh : strStartsWith (strTrim l) "#" = false := by
        cases hb : strStartsWith (strTrim l) "#"
        · rfl
        · exact absurd hb hor.2
      constructor
      · rintro (hx | ⟨l1, hl1, hrest⟩)
        · rcases (mem_insertSig _ _ _).mp hx with rfl | hx
          · exact Or.inr ⟨l, List.mem_cons_self _ _, rfl, he, hsh⟩
          · exact Or.inl hx
        · exact Or.inr ⟨l1, List.mem_cons_of_mem _ hl1, hrest⟩
      · rintro (hx | ⟨l1, hl1, ht, he1, hsh1⟩)
        · exact Or.inl ((mem_insertSig _ _ _).mpr (Or.inr hx))
        · rcases List.mem_cons.mp hl1 with rfl | hl1
          · exact Or.inl ((mem_insertSig _ _ _).mpr (Or.inl ht.symm))
          · exact Or.inr ⟨l1, hl1, ht, he1, hsh1⟩

/-- C9 is refuted on the code: the two loaders do not apply the same
exclusion rule. The line `"  #c"` — leading whitespace before `#` — is
neither blank nor `#`-prefixed, yet the wordlist loader in `main` keeps it
(the `starts_with('#')` test there is on the raw line) while
`ScanState::from_file` excludes it (its test is on the trimmed line). -/
theorem claim_C9_counterexample :
    strIsEmpty (strTrim "  #c") = false
    ∧ strStartsWith "  #c" "#" = false
    ∧ keepDictLine "  #c" = true
    ∧ loadDict ["  #c"] = ["  #c"]
    ∧ keepFilterLine "  #c" = false
    ∧ (ScanState.from_file ["  #c"]).content_signatures = [] := by
  decide

/-- C9 (amended): both input files are line-oriented with comment/blank
exclusion, but the rules differ on lines with leading whitespace before a
`#`: a filter-file line contributes (its trimmed form as) a signature
fragment exactly when the trimmed line is nonempty and does not start with
`#`, while a wordlist line is kept (raw, untrimmed) as a candidate path
exactly when its trimmed form is nonempty and the raw line does not start
with `#`. -/
theorem claim_C9_amended_line_rules (lines : List String) (s l0 : String) :
    (s ∈ (ScanState.from_file lines).content_signatures ↔
      ∃ l ∈ lines, strTrim l = s
        ∧ strIsEmpty s = false ∧ strStartsWith s "#" = false)
    ∧ (l0 ∈ loadDict lines ↔
        l0 ∈ lines ∧ strIsEmpty (strTrim l0) = false
          ∧ strStartsWith l0 "#" = false) := by
  constructor
  · rw [ScanState.from_file, mem_fromFile_fold]
    simp [ScanState.new]
  · rw [loadDict, List.mem_filter, keepDictLine]
    simp [Bool.and_eq_true, Bool.not_eq_true', and_assoc]

/-- Witness for the amended C9: from the lines `["a", " b ", "#c"]`, the
filter file stores the trimmed `"b"` and the wordlist keeps the raw
`" b "`. -/
theorem claim_C9_amended_line_rules_witness :
    "b" ∈ (ScanState.from_file ["a", " b ", "#c"]).content_signatures
    ∧ " b " ∈ loadDict ["a", " b ", "#c"] :=
  ⟨(claim_C9_amended_line_rules ["a", " b ", "#c"] "b" " b ").1.mpr
      ⟨" b ", by decide, by decide, by decide, by decide⟩,
   (claim_C9_amended_line_rules ["a", " b ", "#c"] "b" " b ").2.mpr
      ⟨by decide, by decide, by decide⟩⟩

end RDirScan
